import Mathlib

/-!
Verification development for the GitHub login automation core
(`ghinbox/api/login_fetcher.py` and `ghinbox/api/login_routes.py`):
a shallow embedding of the page-state classifier, the login flow
operations, the mobile-approval poller and the session state machine,
with theorems checking the natural-language specification against it.
-/

set_option maxRecDepth 4000

/-- Detected state of the current page (`PageState` enum in `login_fetcher.py`). -/
inductive PageState where
  | LOGIN_FORM
  | TWOFA_APP
  | TWOFA_SMS
  | TWOFA_MOBILE
  | TWOFA_SECURITY_KEY
  | LOGGED_IN
  | LOGIN_ERROR
  | CAPTCHA
  | UNKNOWN
deriving DecidableEq, Repr

/-- Result of detecting page state (`PageStateResult` dataclass). -/
structure PageStateResult where
  state : PageState
  error_message : Option String
  twofa_method : Option String
  verification_code : Option String
deriving DecidableEq, Repr

/-- A capability probe over the current remote page: selector counts,
text content of the first match, attribute lookup, full page HTML and URL.
This is the abstraction `detect_page_state` consumes via Playwright locators. -/
structure Page where
  url : String
  cnt : String → Nat
  textContent : String → Option String
  attr : String → String → Option String
  content : String

/-- A world maps a URL to the page obtained by navigating there
(used by the security-key → mobile 2FA fallback navigation). -/
def World : Type := String → Page

/-- Is `pat` a contiguous sublist of `hay`? (model of Python `in` on strings). -/
def containsAux (pat : List Char) : List Char → Bool
  | [] => pat.isEmpty
  | c :: t => pat.isPrefixOf (c :: t) || containsAux pat t

/-- Python `pat in hay` for strings. -/
def strContains (hay pat : String) : Bool :=
  containsAux pat.toList hay.toList

/-- Python `x or d` for an optional string: `None` and `""` fall back to `d`. -/
def orDefault (o : Option String) (d : String) : String :=
  match o with
  | some m => if m = "" then d else m
  | none => d

/- Selector constants, verbatim from `login_fetcher.py` (apostrophes written
with the \x27 escape). -/

def userMenuSel : String := "button[aria-label=\"Open user navigation menu\"]"

def captchaIndicators : List String :=
  ["iframe[src*=\"captcha\"]", "iframe[src*=\"recaptcha\"]",
   "div[class*=\"captcha\"]", "#captcha-container"]

def mobileIndicators : List String :=
  ["[data-target=\x27sudo-credential-options.mobileOption\x27]",
   "button[data-action*=\x27mobile\x27]",
   ".js-mobile-credential-option"]

def mobileLinkSel : String := "a[href*=\x27two-factor/mobile\x27]"

def securityKeyBtnSel : String := "button[data-action=\"click:webauthn-get#start\"]"

def appOtpSel : String := "input[name=\"app_otp\"], input[id=\"app_totp\"]"

def smsOtpSel : String := "input[name=\"sms_otp\"]"

def genericOtpSel : String := "input[type=\"text\"][autocomplete=\"one-time-code\"]"

def flashErrorSel : String := ".flash-error"

def errorSelectors : List String :=
  [".js-flash-alert", "#js-flash-container .flash"]

def loginInputSel : String := "input[name=\"login\"], input#login_field"

def passwordInputSel : String := "input[name=\"password\"], input#password"

def captchaMessage : String :=
  "CAPTCHA required. Use --headed-login flag to login manually."

def securityKeyMessage : String :=
  "Security key 2FA not supported. Please configure authenticator app in GitHub settings."

/-- The security-key outcome built in both the URL branch and the button branch. -/
def securityKeyResult : PageStateResult :=
  ⟨.TWOFA_SECURITY_KEY, some securityKeyMessage, some "security_key", none⟩

/- Mobile verification-code extraction
(`LoginFetcher._extract_mobile_verification_code`). -/

/-- The ordered selector list tried for the mobile verification code. -/
def codeSelectors : List String :=
  [".js-verification-code",
   "[data-target=\x27device-verification.number\x27]",
   ".verification-code",
   ".auth-form-body strong",
   ".Box-body strong",
   "div.text-center strong",
   ".flash strong"]

/-- Word character for the `\b` boundary of the Python regex (ASCII model). -/
def isWordChar (c : Char) : Bool :=
  c.isAlphanum || c = '_'

/-- First match of the Python regex `\b(\d{2})\b` scanning left to right:
two consecutive digits with no word character immediately before or after.
`prev` is the character just before the current position, if any. -/
def scanTwoDigit (prev : Option Char) : List Char → Option String
  | c1 :: c2 :: rest =>
    if c1.isDigit && c2.isDigit && prev.all (fun p => !isWordChar p)
        && (rest.head?).all (fun n => !isWordChar n) then
      some (String.mk [c1, c2])
    else
      scanTwoDigit (some c1) (c2 :: rest)
  | _ => none

/-- First bare two-digit token of a string (the regex fallback). -/
def firstTwoDigitToken (s : String) : Option String :=
  scanTwoDigit none s.toList

/-- What one selector yields during code extraction: the element must exist,
its text must be truthy, and the digits kept from the text must number ≥ 2;
the digits are returned. -/
def selectorDigits (page : Page) (sel : String) : Option String :=
  if page.cnt sel > 0 then
    match page.textContent sel with
    | some text =>
      if text ≠ "" then
        let digits := text.toList.filter Char.isDigit
        if digits.length ≥ 2 then some (String.mk digits) else none
      else none
    | none => none
  else none

/-- `LoginFetcher._extract_mobile_verification_code`: first selector that
yields digits, else the first bare two-digit token of the body text, else none. -/
def extractMobileVerificationCode (page : Page) : Option String :=
  match codeSelectors.findSome? (selectorDigits page) with
  | some digits => some digits
  | none => firstTwoDigitToken ((page.textContent "body").getD "")

/-- What the error-selector loop yields for one selector: element present with
non-blank text content; the trimmed text is the error message. -/
def errorSelectorText (page : Page) (sel : String) : Option String :=
  if page.cnt sel > 0 then
    match page.textContent sel with
    | some t => if t.trim ≠ "" then some t.trim else none
    | none => none
  else none

/-- `LoginFetcher.detect_page_state`, embedded over a probe `Page`.
The fuel bounds the security-key → mobile navigation recursion; Python's
recursion limit plays the same role there (a `RecursionError` is caught by
the surrounding handler and becomes an `UNKNOWN` result carrying the
failure text). -/
def detect (world : World) : Nat → Page → PageStateResult
  | 0, _ =>
    ⟨.UNKNOWN, some "Error detecting page state: maximum recursion depth exceeded",
     none, none⟩
  | fuel + 1, page =>
    if page.cnt userMenuSel > 0 then
      ⟨.LOGGED_IN, none, none, none⟩
    else if captchaIndicators.any (fun s => page.cnt s > 0) then
      ⟨.CAPTCHA, some captchaMessage, none, none⟩
    else if strContains page.url "two-factor/mobile" then
      ⟨.TWOFA_MOBILE, none, some "mobile", extractMobileVerificationCode page⟩
    else if mobileIndicators.any (fun s => page.cnt s > 0) then
      ⟨.TWOFA_MOBILE, none, some "mobile", none⟩
    else if strContains page.url "two-factor/webauthn"
        || strContains page.url "two-factor/security" then
      if page.cnt mobileLinkSel > 0 then
        match page.attr mobileLinkSel "href" with
        | some href =>
          if href ≠ "" then
            detect world fuel
              (world (if href.startsWith "/" then "https://github.com" ++ href else href))
          else securityKeyResult
        | none => securityKeyResult
      else securityKeyResult
    else if page.cnt securityKeyBtnSel > 0 then
      securityKeyResult
    else if page.cnt appOtpSel > 0 then
      ⟨.TWOFA_APP, none, some "app", none⟩
    else
      let pageText := page.content.toLower
      let has2faText := strContains pageText "two-factor"
        || strContains pageText "authentication code"
      if has2faText && page.cnt smsOtpSel > 0 then
        ⟨.TWOFA_SMS, none, some "sms", none⟩
      else if has2faText && page.cnt genericOtpSel > 0 then
        ⟨.TWOFA_APP, none, some "app", none⟩
      else if page.cnt flashErrorSel > 0
          && (((page.textContent flashErrorSel).getD "").trim ≠ "") then
        ⟨.LOGIN_ERROR, some (((page.textContent flashErrorSel).getD "").trim), none, none⟩
      else
        match errorSelectors.findSome? (errorSelectorText page) with
        | some msg => ⟨.LOGIN_ERROR, some msg, none, none⟩
        | none =>
          if page.cnt loginInputSel > 0 && page.cnt passwordInputSel > 0 then
            ⟨.LOGIN_FORM, none, none, none⟩
          else
            ⟨.UNKNOWN, none, none, none⟩

/-- `LoginFetcher.detect_page_state` including the page-not-attached guard:
with no page the result is `UNKNOWN` with no message. -/
def detectPageState (world : World) (fuel : Nat) (page : Option Page) : PageStateResult :=
  match page with
  | none => ⟨.UNKNOWN, none, none, none⟩
  | some p => detect world fuel p

/- Flow operations of `LoginFetcher` (`submit_credentials`, `submit_2fa_code`)
and the mobile-approval poller (`wait_for_mobile_approval`). -/

/-- Environment of one `LoginFetcher.submit_credentials` call: the attached
page (if any), the navigation world, whether each bounded wait times out
(the Playwright exception text is carried alongside), and the page the DOM
shows after the click, load wait and settle delay. -/
structure CredSubmitEnv where
  page : Option Page
  world : World
  loginWaitTimeout : Bool
  loginWaitErrText : String
  loadWaitTimeout : Bool
  loadWaitErrText : String
  pageAfterSubmit : Page

/-- `LoginFetcher.submit_credentials`: guard on the attached page; wait ≤10s
for the login/password inputs (a timeout raises, is caught by the handler and
becomes `UNKNOWN` with the failure text); fill both, click submit, wait ≤30s
for the load signal (same timeout handling), settle, then reclassify. -/
def fetcherSubmitCredentials (env : CredSubmitEnv) (fuel : Nat)
    (_username _password : String) : PageStateResult :=
  match env.page with
  | none => ⟨.UNKNOWN, some "Browser not started", none, none⟩
  | some _ =>
    if env.loginWaitTimeout then
      ⟨.UNKNOWN, some ("Error submitting credentials: " ++ env.loginWaitErrText),
       none, none⟩
    else if env.loadWaitTimeout then
      ⟨.UNKNOWN, some ("Error submitting credentials: " ++ env.loadWaitErrText),
       none, none⟩
    else
      detect env.world fuel env.pageAfterSubmit

/-- The OTP input selectors searched by `submit_2fa_code`, in source order:
app OTP, alternate app OTP id, SMS OTP, generic one-time-code. -/
def otpSelectors : List String :=
  ["input[name=\"app_otp\"]",
   "input[id=\"app_totp\"]",
   "input[name=\"sms_otp\"]",
   "input[type=\"text\"][autocomplete=\"one-time-code\"]"]

/-- The submit control clicked after filling the 2FA code. -/
def twoFaSubmitSel : String := "button[type=\"submit\"], input[type=\"submit\"]"

/-- A page interaction performed by a flow operation. -/
inductive FAction where
  | fill (selector : String) (value : String)
  | click (selector : String)
  | waitLoad
  | settle
deriving DecidableEq, Repr

/-- Environment of one `LoginFetcher.submit_2fa_code` call. -/
structure TwoFaSubmitEnv where
  page : Option Page
  world : World
  loadWaitTimeout : Bool
  loadWaitErrText : String
  pageAfterSubmit : Page

/-- `LoginFetcher.submit_2fa_code`: guard on the attached page; search the
OTP selectors in order and use the first present; if none is present return
`UNKNOWN` with message "Could not find 2FA input field" and perform no page
interaction; otherwise fill the field, click submit, wait ≤30s, settle and
reclassify. The second component records the interactions performed. -/
def fetcherSubmit2faCode (env : TwoFaSubmitEnv) (fuel : Nat)
    (code : String) : PageStateResult × List FAction :=
  match env.page with
  | none => (⟨.UNKNOWN, some "Browser not started", none, none⟩, [])
  | some page =>
    match otpSelectors.find? (fun s => page.cnt s > 0) with
    | none => (⟨.UNKNOWN, some "Could not find 2FA input field", none, none⟩, [])
    | some sel =>
      if env.loadWaitTimeout then
        (⟨.UNKNOWN, some ("Error submitting 2FA code: " ++ env.loadWaitErrText),
          none, none⟩,
         [FAction.fill sel code, FAction.click twoFaSubmitSel, FAction.waitLoad])
      else
        (detect env.world fuel env.pageAfterSubmit,
         [FAction.fill sel code, FAction.click twoFaSubmitSel,
          FAction.waitLoad, FAction.settle])

/-- The result synthesized by `wait_for_mobile_approval` on timeout. -/
def mobileTimeoutResult (timeoutSeconds : Int) : PageStateResult :=
  ⟨.TWOFA_MOBILE,
   some ("Mobile approval timed out after " ++ toString timeoutSeconds
     ++ " seconds. Please try again."),
   some "mobile", none⟩

/-- The polling loop of `wait_for_mobile_approval`. `res n` is the
classification observed at poll `n`; elapsed time at the top of poll `n` is
`n * pollInterval` (each completed poll sleeps once; classification itself is
modelled as instantaneous). The fuel makes the recursion structural; the
termination theorem shows a computable fuel always suffices. -/
def wfmLoop (res : Nat → PageStateResult) (timeoutSeconds : Int)
    (pollInterval : ℚ) : Nat → Nat → Option PageStateResult
  | 0, _ => none
  | fuel + 1, n =>
    if (timeoutSeconds : ℚ) < n * pollInterval then
      some (mobileTimeoutResult timeoutSeconds)
    else
      let r := res n
      if r.state = .LOGGED_IN then some r
      else if r.state = .LOGIN_ERROR then some r
      else if r.state = .TWOFA_MOBILE || r.state = .UNKNOWN then
        wfmLoop res timeoutSeconds pollInterval fuel (n + 1)
      else some r

/-- `LoginFetcher.wait_for_mobile_approval` including the page-not-attached
guard. -/
def waitForMobileApproval (page : Option Page) (res : Nat → PageStateResult)
    (timeoutSeconds : Int) (pollInterval : ℚ) (fuel : Nat) : Option PageStateResult :=
  match page with
  | none => some ⟨.UNKNOWN, some "Browser not started", none, none⟩
  | some _ => wfmLoop res timeoutSeconds pollInterval fuel 0

/- Fixture pages used by witnesses and counterexamples. -/

/-- A page on which every probe comes back empty. -/
def emptyPage : Page :=
  { url := "", cnt := fun _ => 0, textContent := fun _ => none,
    attr := fun _ _ => none, content := "" }

/-- A world in which every navigation lands on the empty page. -/
def trivialWorld : World := fun _ => emptyPage

/-- Fixture: the authenticated user-menu button is present and a non-empty
error banner is also present. -/
def loggedInErrorPage : Page :=
  { url := "https://github.com/",
    cnt := fun s => if s = userMenuSel then 1 else if s = flashErrorSel then 1 else 0,
    textContent := fun s =>
      if s = flashErrorSel then some "Incorrect username or password." else none,
    attr := fun _ _ => none,
    content := "" }

/-- Fixture: mobile 2FA page whose body text is "Enter 42 on your device"
and on which no code selector matches. -/
def mobileCodePage : Page :=
  { url := "https://github.com/sessions/two-factor/mobile",
    cnt := fun _ => 0,
    textContent := fun s => if s = "body" then some "Enter 42 on your device" else none,
    attr := fun _ _ => none,
    content := "" }

/-- Fixture: mobile 2FA page whose body text holds no two-digit token. -/
def mobileNoCodePage : Page :=
  { url := "https://github.com/sessions/two-factor/mobile",
    cnt := fun _ => 0,
    textContent := fun s => if s = "body" then some "No digits here at all" else none,
    attr := fun _ _ => none,
    content := "" }
/- Further fixtures for the flow-operation claims. -/

/-- Fixture: an authenticated page (user-menu button present, nothing else). -/
def loggedInPage : Page :=
  { url := "https://github.com/",
    cnt := fun s => if s = userMenuSel then 1 else 0,
    textContent := fun _ => none,
    attr := fun _ _ => none,
    content := "" }

/-- A credential-submission environment with no page attached. -/
def closedCredEnv : CredSubmitEnv :=
  { page := none, world := trivialWorld, loginWaitTimeout := false,
    loginWaitErrText := "", loadWaitTimeout := false, loadWaitErrText := "",
    pageAfterSubmit := emptyPage }

/-- A 2FA-submission environment with no page attached. -/
def closedTwoFaEnv : TwoFaSubmitEnv :=
  { page := none, world := trivialWorld, loadWaitTimeout := false,
    loadWaitErrText := "", pageAfterSubmit := emptyPage }

/-- A credential-submission environment in which the 10s wait for the login
input times out while the DOM actually shows the authenticated page. -/
def credTimeoutEnv : CredSubmitEnv :=
  { page := some loggedInPage, world := trivialWorld, loginWaitTimeout := true,
    loginWaitErrText := "Timeout 10000ms exceeded.", loadWaitTimeout := false,
    loadWaitErrText := "", pageAfterSubmit := loggedInPage }

/-- A 2FA-submission environment whose page exposes no OTP input at all. -/
def no2faEnv : TwoFaSubmitEnv :=
  { page := some emptyPage, world := trivialWorld, loadWaitTimeout := false,
    loadWaitErrText := "", pageAfterSubmit := emptyPage }

/- Session registry / login state machine (`login_routes.py` over the session
manager of `ghinbox/api/login_state.py`; the manager itself is not in the
sources, so its primitives are modelled from the spec). -/

/-- Modelled from the spec: the session states of §4.4 (the `LoginState` enum
of the missing `ghinbox/api/login_state.py`). -/
inductive LoginState where
  | INITIALIZED
  | SUBMITTING_CREDENTIALS
  | WAITING_2FA
  | WAITING_MOBILE
  | SUBMITTING_2FA
  | SUCCESS
  | ERROR
  | CAPTCHA
deriving DecidableEq, Repr

/-- Modelled from the spec: the `.value` string of a `LoginState`, used only
inside InvalidSessionState error details. -/
def LoginState.value : LoginState → String
  | .INITIALIZED => "initialized"
  | .SUBMITTING_CREDENTIALS => "submitting_credentials"
  | .WAITING_2FA => "waiting_2fa"
  | .WAITING_MOBILE => "waiting_mobile"
  | .SUBMITTING_2FA => "submitting_2fa"
  | .SUCCESS => "success"
  | .ERROR => "error"
  | .CAPTCHA => "captcha"

/-- Modelled from the spec: a session record (§3): id, account, state and the
optional outcome fields; `requires_2fa` and `twofa_method` travel together. -/
structure Session where
  session_id : String
  account : String
  state : LoginState
  error_message : Option String
  username : Option String
  twofa_method : Option String
  requires_2fa : Bool
deriving DecidableEq, Repr

/-- Modelled from the spec: the registry mapping session ids to sessions. -/
def Registry : Type := List (String × Session)

/-- Modelled from the spec: `SessionManager.get_session`. -/
def lookupSession : Registry → String → Option Session
  | [], _ => none
  | p :: t, sid => if p.1 = sid then some p.2 else lookupSession t sid

/-- Point update of one session in the registry. -/
def updateSession : Registry → String → (Session → Session) → Registry
  | [], _, _ => []
  | p :: t, sid, f => (if p.1 = sid then (p.1, f p.2) else p) :: updateSession t sid f

/-- Modelled from the spec: `SessionManager.remove_session`; a removed id is
permanently invalid. -/
def removeSession : Registry → String → Registry
  | [], _ => []
  | p :: t, sid =>
    if p.1 = sid then removeSession t sid else p :: removeSession t sid

/-- Modelled from the spec: `SessionManager.update_state` applied to one
session: set the new state, overwrite the optional fields that are provided,
and clear `requires_2fa`/`twofa_method` on terminal Success/Error (§3). -/
def Session.updState (s : Session) (st : LoginState) (err : Option String)
    (user : Option String) (r2 : Option Bool) (tm : Option String) : Session :=
  let s1 : Session :=
    { s with
      state := st,
      error_message := match err with | some e => some e | none => s.error_message,
      username := match user with | some u => some u | none => s.username,
      requires_2fa := match r2 with | some b => b | none => s.requires_2fa,
      twofa_method := match tm with | some m => some m | none => s.twofa_method }
  if st = .SUCCESS ∨ st = .ERROR then
    { s1 with requires_2fa := false, twofa_method := none }
  else s1

/-- Modelled from the spec: `SessionManager.update_state` on the registry. -/
def mgrUpdateState (r : Registry) (sid : String) (st : LoginState)
    (err : Option String) (user : Option String) (r2 : Option Bool)
    (tm : Option String) : Registry :=
  updateSession r sid (fun s => s.updState st err user r2 tm)

/-- The `status_map` of `get_login_status`: session state → response status tag. -/
def statusMap : LoginState → String
  | .INITIALIZED => "initialized"
  | .SUBMITTING_CREDENTIALS => "submitting"
  | .WAITING_2FA => "waiting_2fa"
  | .WAITING_MOBILE => "waiting_mobile"
  | .SUBMITTING_2FA => "submitting"
  | .SUCCESS => "success"
  | .ERROR => "error"
  | .CAPTCHA => "captcha"

/-- The `LoginResponse` model of `login_routes.py`. -/
structure LoginResponse where
  session_id : String
  status : String
  message : Option String
  error : Option String
  username : Option String
  twofa_method : Option String
  verification_code : Option String
deriving DecidableEq, Repr

/-- Outcome of one route call: a response, or an `HTTPException` with its
status code and detail. -/
inductive RouteResult where
  | ok (resp : LoginResponse)
  | httpError (status : Nat) (detail : String)
deriving DecidableEq, Repr

/-- `submit_credentials` route handler: guards (unknown id → 404, state other
than Initialized → 400, missing fetcher → 500), transient
`SUBMITTING_CREDENTIALS`, then the mapping of the classification `result`;
`persistOk`/`persistUser` are the outcome of `save_auth_state`. -/
def routeSubmitCredentials (r : Registry) (sid : String) (fetcherPresent : Bool)
    (result : PageStateResult) (persistOk : Bool) (persistUser : Option String) :
    Registry × RouteResult :=
  match lookupSession r sid with
  | none => (r, .httpError 404 "Session not found or expired")
  | some s =>
    if s.state ≠ .INITIALIZED then
      (r, .httpError 400 ("Invalid session state for credentials: " ++ s.state.value))
    else if fetcherPresent = false then
      (r, .httpError 500 "No fetcher associated with session")
    else
      let r1 := mgrUpdateState r sid .SUBMITTING_CREDENTIALS none none none none
      match result.state with
      | .LOGGED_IN =>
        if persistOk then
          (mgrUpdateState r1 sid .SUCCESS none persistUser none none,
           .ok { session_id := sid, status := "success",
                 message := some "Login successful", error := none,
                 username := persistUser, twofa_method := none,
                 verification_code := none })
        else
          (mgrUpdateState r1 sid .ERROR (some "Failed to save auth state")
             none none none,
           .ok { session_id := sid, status := "error", message := none,
                 error := some "Failed to save auth state", username := none,
                 twofa_method := none, verification_code := none })
      | .TWOFA_MOBILE =>
        (mgrUpdateState r1 sid .WAITING_MOBILE none none (some true) (some "mobile"),
         .ok { session_id := sid, status := "waiting_mobile",
               message := some "Approve the login request on your GitHub Mobile app",
               error := none, username := none, twofa_method := some "mobile",
               verification_code := result.verification_code })
      | .TWOFA_APP =>
        (mgrUpdateState r1 sid .WAITING_2FA none none (some true) result.twofa_method,
         .ok { session_id := sid, status := "waiting_2fa",
               message := some "Enter your 2FA code", error := none,
               username := none, twofa_method := result.twofa_method,
               verification_code := none })
      | .TWOFA_SMS =>
        (mgrUpdateState r1 sid .WAITING_2FA none none (some true) result.twofa_method,
         .ok { session_id := sid, status := "waiting_2fa",
               message := some "Enter your 2FA code", error := none,
               username := none, twofa_method := result.twofa_method,
               verification_code := none })
      | .TWOFA_SECURITY_KEY =>
        (mgrUpdateState r1 sid .ERROR result.error_message none none none,
         .ok { session_id := sid, status := "error", message := none,
               error := some (orDefault result.error_message
                 "Security key 2FA not supported. Please configure authenticator app."),
               username := none, twofa_method := none, verification_code := none })
      | .CAPTCHA =>
        (mgrUpdateState r1 sid .CAPTCHA result.error_message none none none,
         .ok { session_id := sid, status := "captcha", message := none,
               error := some (orDefault result.error_message
                 "CAPTCHA required. Use --headed-login flag."),
               username := none, twofa_method := none, verification_code := none })
      | .LOGIN_ERROR =>
        (mgrUpdateState r1 sid .ERROR result.error_message none none none,
         .ok { session_id := sid, status := "error", message := none,
               error := some (orDefault result.error_message "Login failed"),
               username := none, twofa_method := none, verification_code := none })
      | .LOGIN_FORM =>
        (mgrUpdateState r1 sid .ERROR
           (some (orDefault result.error_message "Unknown page state")) none none none,
         .ok { session_id := sid, status := "error", message := none,
               error := some (orDefault result.error_message
                 "Unknown page state after credentials"),
               username := none, twofa_method := none, verification_code := none })
      | .UNKNOWN =>
        (mgrUpdateState r1 sid .ERROR
           (some (orDefault result.error_message "Unknown page state")) none none none,
         .ok { session_id := sid, status := "error", message := none,
               error := some (orDefault result.error_message
                 "Unknown page state after credentials"),
               username := none, twofa_method := none, verification_code := none })

/-- `submit_2fa` route handler. -/
def routeSubmit2fa (r : Registry) (sid : String) (fetcherPresent : Bool)
    (result : PageStateResult) (persistOk : Bool) (persistUser : Option String) :
    Registry × RouteResult :=
  match lookupSession r sid with
  | none => (r, .httpError 404 "Session not found or expired")
  | some s =>
    if s.state ≠ .WAITING_2FA then
      (r, .httpError 400 ("Invalid session state for 2FA: " ++ s.state.value))
    else if fetcherPresent = false then
      (r, .httpError 500 "No fetcher associated with session")
    else
      let r1 := mgrUpdateState r sid .SUBMITTING_2FA none none none none
      match result.state with
      | .LOGGED_IN =>
        if persistOk then
          (mgrUpdateState r1 sid .SUCCESS none persistUser none none,
           .ok { session_id := sid, status := "success",
                 message := some "Login successful", error := none,
                 username := persistUser, twofa_method := none,
                 verification_code := none })
        else
          (mgrUpdateState r1 sid .ERROR (some "Failed to save auth state")
             none none none,
           .ok { session_id := sid, status := "error", message := none,
                 error := some "Failed to save auth state", username := none,
                 twofa_method := none, verification_code := none })
      | .LOGIN_ERROR =>
        (mgrUpdateState r1 sid .WAITING_2FA none none none none,
         .ok { session_id := sid, status := "waiting_2fa", message := none,
               error := some (orDefault result.error_message
                 "Invalid 2FA code, please try again"),
               username := none, twofa_method := none, verification_code := none })
      | _ =>
        (mgrUpdateState r1 sid .ERROR
           (some (orDefault result.error_message "Unknown state after 2FA"))
           none none none,
         .ok { session_id := sid, status := "error", message := none,
               error := some (orDefault result.error_message
                 "Unknown state after 2FA submission"),
               username := none, twofa_method := none, verification_code := none })

/-- `wait_for_mobile_2fa` route handler (no transient state is entered). -/
def routeMobileWait (r : Registry) (sid : String) (fetcherPresent : Bool)
    (result : PageStateResult) (persistOk : Bool) (persistUser : Option String) :
    Registry × RouteResult :=
  match lookupSession r sid with
  | none => (r, .httpError 404 "Session not found or expired")
  | some s =>
    if s.state ≠ .WAITING_MOBILE then
      (r, .httpError 400 ("Invalid session state for mobile wait: " ++ s.state.value))
    else if fetcherPresent = false then
      (r, .httpError 500 "No fetcher associated with session")
    else
      match result.state with
      | .LOGGED_IN =>
        if persistOk then
          (mgrUpdateState r sid .SUCCESS none persistUser none none,
           .ok { session_id := sid, status := "success",
                 message := some "Login successful", error := none,
                 username := persistUser, twofa_method := none,
                 verification_code := none })
        else
          (mgrUpdateState r sid .ERROR (some "Failed to save auth state")
             none none none,
           .ok { session_id := sid, status := "error", message := none,
                 error := some "Failed to save auth state", username := none,
                 twofa_method := none, verification_code := none })
      | .TWOFA_MOBILE =>
        (r, .ok { session_id := sid, status := "waiting_mobile",
                  message := some "Mobile approval timed out. Try again.",
                  error := result.error_message, username := none,
                  twofa_method := some "mobile", verification_code := none })
      | .LOGIN_ERROR =>
        (mgrUpdateState r sid .ERROR result.error_message none none none,
         .ok { session_id := sid, status := "error", message := none,
               error := some (orDefault result.error_message "Mobile 2FA failed"),
               username := none, twofa_method := none, verification_code := none })
      | _ =>
        (mgrUpdateState r sid .ERROR
           (some (orDefault result.error_message "Unexpected state")) none none none,
         .ok { session_id := sid, status := "error", message := none,
               error := some (orDefault result.error_message
                 "Unexpected state during mobile wait"),
               username := none, twofa_method := none, verification_code := none })

/-- `cancel_login` route handler: unknown id → 404; otherwise the fetcher is
closed and the session removed. -/
def routeCancel (r : Registry) (sid : String) : Registry × RouteResult :=
  match lookupSession r sid with
  | none => (r, .httpError 404 "Session not found or expired")
  | some _ =>
    (removeSession r sid,
     .ok { session_id := sid, status := "error",
           message := some "Session cancelled", error := none,
           username := none, twofa_method := none, verification_code := none })

/-- `get_login_status` route handler. -/
def routeStatus (r : Registry) (sid : String) : RouteResult :=
  match lookupSession r sid with
  | none => .httpError 404 "Session not found or expired"
  | some s =>
    .ok { session_id := s.session_id, status := statusMap s.state,
          message := none, error := s.error_message, username := s.username,
          twofa_method := if s.requires_2fa then s.twofa_method else none,
          verification_code := none }

/-- The per-state session-state mapping the spec claims for
`submitCredentials` from `Initialized` (C2's words; the code additionally
sends `LOGIN_FORM` to `ERROR` through the same catch-all branch). -/
def claimedCredMapping (ps : PageState) (persistOk : Bool) : LoginState :=
  match ps with
  | .LOGGED_IN => if persistOk then .SUCCESS else .ERROR
  | .TWOFA_APP => .WAITING_2FA
  | .TWOFA_SMS => .WAITING_2FA
  | .TWOFA_MOBILE => .WAITING_MOBILE
  | .CAPTCHA => .CAPTCHA
  | .TWOFA_SECURITY_KEY => .ERROR
  | .LOGIN_ERROR => .ERROR
  | .UNKNOWN => .ERROR
  | .LOGIN_FORM => .ERROR

/-- The per-state mapping the spec claims for `submitTwoFactorCode` from
`WaitingTwoFactor` (C6's words, with the persistence hand-off made explicit
as in §4.4). -/
def claimed2faMapping (ps : PageState) (persistOk : Bool) : LoginState :=
  match ps with
  | .LOGGED_IN => if persistOk then .SUCCESS else .ERROR
  | .LOGIN_ERROR => .WAITING_2FA
  | _ => .ERROR

/-- `n` successive `submit_2fa` calls against the same session with the same
classification result (the retry loop of a repeatedly wrong code). -/
def retry2faIter (sid : String) (result : PageStateResult) (persistOk : Bool)
    (persistUser : Option String) : Nat → Registry → Registry
  | 0, r => r
  | n + 1, r =>
    retry2faIter sid result persistOk persistUser n
      (routeSubmit2fa r sid true result persistOk persistUser).1

/-- A session record in a given state, used by witnesses. -/
def sampleSession (st : LoginState) : Session :=
  ⟨"s1", "acme", st, none, none, none, false⟩

/-- A registry holding one session in a given state, used by witnesses. -/
def sampleRegistry (st : LoginState) : Registry :=
  [("s1", sampleSession st)]

/-- The response `cancel_login` builds on success. -/
def cancelledResponse (sid : String) : LoginResponse :=
  { session_id := sid, status := "error", message := some "Session cancelled",
    error := none, username := none, twofa_method := none,
    verification_code := none }


/-! ### Theorems -/

/- Helper lemmas about `List.findSome?`. -/

theorem findSome?_append_of_forall_none {α β : Type} (f : α → Option β)
    (pre : List α) (x : α) (post : List α)
    (hpre : ∀ s ∈ pre, f s = none) {d : β} (hx : f x = some d) :
    (pre ++ x :: post).findSome? f = some d := by
  induction pre with
  | nil => simp [List.findSome?, hx]
  | cons a t ih =>
    have ha : f a = none := hpre a (by simp)
    have ht : ∀ s ∈ t, f s = none := fun s hs => hpre s (by simp [hs])
    simpa [List.findSome?, ha] using ih ht

theorem findSome?_eq_none_of_forall_none {α β : Type} (f : α → Option β)
    (l : List α) (h : ∀ s ∈ l, f s = none) :
    l.findSome? f = none := by
  induction l with
  | nil => simp [List.findSome?]
  | cons a t ih =>
    have ha : f a = none := h a (by simp)
    have ht : ∀ s ∈ t, f s = none := fun s hs => h s (by simp [hs])
    simp [List.findSome?, ha, ih ht]

/-- C1: Classification precedence is first-match-wins with the authenticated
indicator checked first: whenever the user-menu button is present, one step of
`detect_page_state` returns `LOGGED_IN` (with no message), regardless of every
other indicator on the page — in particular the result is never `LOGIN_ERROR`,
even when a non-empty error banner is also present. -/
theorem c1_loggedIn_shortcircuits (world : World) (fuel : Nat) (page : Page)
    (h : page.cnt userMenuSel > 0) :
    detect world (fuel + 1) page = ⟨.LOGGED_IN, none, none, none⟩ ∧
      (detect world (fuel + 1) page).state ≠ .LOGIN_ERROR := by
  constructor
  · simp [detect, h]
  · simp [detect, h]

/-- Witness for C1 at the fixture page that exposes both the logged-in
indicator and a non-empty error banner. -/
theorem c1_loggedIn_shortcircuits_witness :
    loggedInErrorPage.cnt userMenuSel > 0 ∧
      detect trivialWorld 1 loggedInErrorPage = ⟨.LOGGED_IN, none, none, none⟩ ∧
      (detect trivialWorld 1 loggedInErrorPage).state ≠ .LOGIN_ERROR := by
  refine ⟨by decide, ?_⟩
  exact c1_loggedIn_shortcircuits trivialWorld 0 loggedInErrorPage (by decide)

/-- C8: Mobile verification-code extraction tries the ordered selector list and
returns the digits of the first selector that yields ≥ 2 digit characters after
stripping non-digits; when no selector yields, it scans the body text and
returns the first bare two-digit token; on the fixture text
"Enter 42 on your device" it yields "42", and on a text with no two-digit token
it yields `none` rather than an error. -/
theorem c8_verification_code_extraction :
    (∀ (page : Page) (pre : List String) (sel : String) (post : List String)
        (d : String),
      codeSelectors = pre ++ sel :: post →
      (∀ s ∈ pre, selectorDigits page s = none) →
      selectorDigits page sel = some d →
      extractMobileVerificationCode page = some d) ∧
    (∀ page : Page,
      (∀ s ∈ codeSelectors, selectorDigits page s = none) →
      extractMobileVerificationCode page
        = firstTwoDigitToken ((page.textContent "body").getD "")) ∧
    extractMobileVerificationCode mobileCodePage = some "42" ∧
    extractMobileVerificationCode mobileNoCodePage = none := by
  refine ⟨?_, ?_, by decide, by decide⟩
  · intro page pre sel post d hlist hpre hsel
    unfold extractMobileVerificationCode
    rw [hlist, findSome?_append_of_forall_none (selectorDigits page) pre sel post hpre hsel]
  · intro page hall
    unfold extractMobileVerificationCode
    rw [findSome?_eq_none_of_forall_none (selectorDigits page) codeSelectors hall]

/-- Witness for C8: the first-match law applied with the whole selector list as
the singleton decomposition on a page where the first selector yields "42",
plus the fallback law at the fixture page. -/
theorem c8_verification_code_extraction_witness :
    extractMobileVerificationCode
        { url := "", cnt := fun _ => 1,
          textContent := fun _ => some "Enter 42 on your device",
          attr := fun _ _ => none, content := "" } = some "42" ∧
      extractMobileVerificationCode mobileCodePage
        = firstTwoDigitToken ((mobileCodePage.textContent "body").getD "") := by
  constructor
  · exact c8_verification_code_extraction.1
      { url := "", cnt := fun _ => 1,
        textContent := fun _ => some "Enter 42 on your device",
        attr := fun _ _ => none, content := "" }
      [] ".js-verification-code"
      ["[data-target=\x27device-verification.number\x27]",
       ".verification-code",
       ".auth-form-body strong",
       ".Box-body strong",
       "div.text-center strong",
       ".flash strong"]
      "42" (by decide) (by intro s hs; simp at hs) (by decide)
  · exact c8_verification_code_extraction.2.1 mobileCodePage (by decide)

/-- C10: every flow operation invoked with no page attached returns an
`UNKNOWN` result carrying "Browser not started" (`detect_page_state` returns
`UNKNOWN` with no message) instead of raising. -/
theorem c10_browser_not_started :
    (∀ (world : World) (fuel : Nat),
      detectPageState world fuel none = ⟨.UNKNOWN, none, none, none⟩) ∧
    (∀ (env : CredSubmitEnv) (fuel : Nat) (u p : String), env.page = none →
      fetcherSubmitCredentials env fuel u p
        = ⟨.UNKNOWN, some "Browser not started", none, none⟩) ∧
    (∀ (env : TwoFaSubmitEnv) (fuel : Nat) (c : String), env.page = none →
      fetcherSubmit2faCode env fuel c
        = (⟨.UNKNOWN, some "Browser not started", none, none⟩, [])) ∧
    (∀ (res : Nat → PageStateResult) (t : Int) (i : ℚ) (fuel : Nat),
      waitForMobileApproval none res t i fuel
        = some ⟨.UNKNOWN, some "Browser not started", none, none⟩) := by
  refine ⟨fun world fuel => rfl, ?_, ?_, fun res t i fuel => rfl⟩
  · intro env fuel u p h
    simp [fetcherSubmitCredentials, h]
  · intro env fuel c h
    simp [fetcherSubmit2faCode, h]

/-- Witness for C10 at concrete closed environments. -/
theorem c10_browser_not_started_witness :
    detectPageState trivialWorld 0 none = ⟨.UNKNOWN, none, none, none⟩ ∧
      fetcherSubmitCredentials closedCredEnv 0 "bob" "secret"
        = ⟨.UNKNOWN, some "Browser not started", none, none⟩ ∧
      fetcherSubmit2faCode closedTwoFaEnv 0 "123456"
        = (⟨.UNKNOWN, some "Browser not started", none, none⟩, []) ∧
      waitForMobileApproval none (fun _ => ⟨.UNKNOWN, none, none, none⟩) 120 2 5
        = some ⟨.UNKNOWN, some "Browser not started", none, none⟩ :=
  ⟨c10_browser_not_started.1 trivialWorld 0,
   c10_browser_not_started.2.1 closedCredEnv 0 "bob" "secret" rfl,
   c10_browser_not_started.2.2.1 closedTwoFaEnv 0 "123456" rfl,
   c10_browser_not_started.2.2.2 (fun _ => ⟨.UNKNOWN, none, none, none⟩) 120 2 5⟩

/-- C5 counterexample: when the 10s wait for the login input times out while
the DOM already shows the authenticated page, `submit_credentials` does not
reclassify the DOM (which would give `LOGGED_IN`): it returns an `UNKNOWN`
result carrying the exception text. -/
theorem c5_counterexample :
    fetcherSubmitCredentials credTimeoutEnv 1 "bob" "secret"
        = ⟨.UNKNOWN, some "Error submitting credentials: Timeout 10000ms exceeded.",
           none, none⟩ ∧
      detect trivialWorld 1 loggedInPage = ⟨.LOGGED_IN, none, none, none⟩ ∧
      fetcherSubmitCredentials credTimeoutEnv 1 "bob" "secret"
        ≠ detect trivialWorld 1 loggedInPage := by
  refine ⟨by decide, by decide, by decide⟩

/-- C5 amended: if a bounded wait (login-input wait or post-submit load wait)
times out, `submit_credentials` does not raise and does not reclassify: the
exception is absorbed and an `UNKNOWN` result carrying
"Error submitting credentials: " plus the failure text is returned; only when
neither wait times out is the settled DOM reclassified. -/
theorem c5_wait_timeout_behavior (env : CredSubmitEnv) (fuel : Nat)
    (u p : String) (page : Page) (hpage : env.page = some page) :
    (env.loginWaitTimeout = true →
      fetcherSubmitCredentials env fuel u p
        = ⟨.UNKNOWN,
           some ("Error submitting credentials: " ++ env.loginWaitErrText),
           none, none⟩) ∧
    (env.loginWaitTimeout = false → env.loadWaitTimeout = true →
      fetcherSubmitCredentials env fuel u p
        = ⟨.UNKNOWN,
           some ("Error submitting credentials: " ++ env.loadWaitErrText),
           none, none⟩) ∧
    (env.loginWaitTimeout = false → env.loadWaitTimeout = false →
      fetcherSubmitCredentials env fuel u p
        = detect env.world fuel env.pageAfterSubmit) := by
  refine ⟨fun h1 => ?_, fun h1 h2 => ?_, fun h1 h2 => ?_⟩ <;>
    simp [fetcherSubmitCredentials, hpage, h1]
  · simp [h2]
  · simp [h2]

/-- Witness for the amended C5 at the concrete timed-out environment. -/
theorem c5_wait_timeout_behavior_witness :
    fetcherSubmitCredentials credTimeoutEnv 1 "bob" "secret"
      = ⟨.UNKNOWN,
         some ("Error submitting credentials: " ++ credTimeoutEnv.loginWaitErrText),
         none, none⟩ :=
  (c5_wait_timeout_behavior credTimeoutEnv 1 "bob" "secret" loggedInPage rfl).1 rfl

/-- C9 counterexample: on a page exposing no OTP input, `submit_2fa_code`
returns `UNKNOWN` with message "Could not find 2FA input field" — not the
message "no 2FA input field found" stated by the claim. -/
theorem c9_counterexample :
    (fetcherSubmit2faCode no2faEnv 1 "123456").1.error_message
        = some "Could not find 2FA input field" ∧
      (fetcherSubmit2faCode no2faEnv 1 "123456").1.error_message
        ≠ some "no 2FA input field found" := by
  refine ⟨by decide, by decide⟩

/-- C9 amended: `submit_2fa_code` searches the OTP selectors in the fixed
order app-OTP, alt app-OTP id, SMS-OTP, generic one-time-code and uses the
first one present; if none is present it returns `UNKNOWN` with message
"Could not find 2FA input field" and performs no fill, click or submission of
any kind (the recorded interaction list is empty). -/
theorem c9_otp_selector_search :
    otpSelectors
        = ["input[name=\"app_otp\"]", "input[id=\"app_totp\"]",
           "input[name=\"sms_otp\"]",
           "input[type=\"text\"][autocomplete=\"one-time-code\"]"] ∧
    (∀ (env : TwoFaSubmitEnv) (fuel : Nat) (code : String) (page : Page),
      env.page = some page →
      otpSelectors.find? (fun s => page.cnt s > 0) = none →
      fetcherSubmit2faCode env fuel code
        = (⟨.UNKNOWN, some "Could not find 2FA input field", none, none⟩, [])) ∧
    (∀ (env : TwoFaSubmitEnv) (fuel : Nat) (code : String) (page : Page)
        (sel : String),
      env.page = some page →
      otpSelectors.find? (fun s => page.cnt s > 0) = some sel →
      env.loadWaitTimeout = false →
      fetcherSubmit2faCode env fuel code
        = (detect env.world fuel env.pageAfterSubmit,
           [FAction.fill sel code, FAction.click twoFaSubmitSel,
            FAction.waitLoad, FAction.settle])) := by
  refine ⟨rfl, ?_, ?_⟩
  · intro env fuel code page hpage hfind
    simp [fetcherSubmit2faCode, hpage, hfind]
  · intro env fuel code page sel hpage hfind hto
    simp [fetcherSubmit2faCode, hpage, hfind, hto]

/-- Witness for the amended C9: the none-present branch at the concrete
environment and the first-present branch on a page exposing only the SMS OTP
input. -/
theorem c9_otp_selector_search_witness :
    fetcherSubmit2faCode no2faEnv 1 "123456"
        = (⟨.UNKNOWN, some "Could not find 2FA input field", none, none⟩, []) ∧
      fetcherSubmit2faCode
          { page := some
              { url := "", cnt := fun s => if s = smsOtpSel then 1 else 0,
                textContent := fun _ => none, attr := fun _ _ => none,
                content := "" },
            world := trivialWorld, loadWaitTimeout := false,
            loadWaitErrText := "", pageAfterSubmit := emptyPage } 1 "123456"
        = (detect trivialWorld 1 emptyPage,
           [FAction.fill smsOtpSel "123456", FAction.click twoFaSubmitSel,
            FAction.waitLoad, FAction.settle]) := by
  constructor
  · exact c9_otp_selector_search.2.1 no2faEnv 1 "123456" emptyPage rfl (by decide)
  · exact c9_otp_selector_search.2.2
      { page := some
          { url := "", cnt := fun s => if s = smsOtpSel then 1 else 0,
            textContent := fun _ => none, attr := fun _ _ => none,
            content := "" },
        world := trivialWorld, loadWaitTimeout := false,
        loadWaitErrText := "", pageAfterSubmit := emptyPage }
      1 "123456"
      { url := "", cnt := fun s => if s = smsOtpSel then 1 else 0,
        textContent := fun _ => none, attr := fun _ _ => none, content := "" }
      smsOtpSel rfl (by decide) rfl

/- Termination bound for the mobile-approval poll loop. -/

theorem wfmLoop_nonTimeout_poll_le_floor (t : Int) (i : ℚ) (hi : 0 < i)
    (n : Nat) (hn : ¬ ((t : ℚ) < n * i)) :
    n ≤ ⌊(t : ℚ) / i⌋₊ := by
  push_neg at hn
  have hdiv : (n : ℚ) ≤ (t : ℚ) / i := (le_div_iff₀ hi).mpr hn
  exact Nat.le_floor hdiv

theorem wfmLoop_isSome_of_fuel (res : Nat → PageStateResult) (t : Int)
    (i : ℚ) (hi : 0 < i) :
    ∀ (fuel n : Nat), ⌊(t : ℚ) / i⌋₊ + 1 < n + fuel → n ≤ ⌊(t : ℚ) / i⌋₊ + 1 →
      (wfmLoop res t i fuel n).isSome = true := by
  intro fuel
  induction fuel with
  | zero => intro n h1 h2; omega
  | succ fuel ih =>
    intro n h1 h2
    by_cases hto : (t : ℚ) < n * i
    · simp [wfmLoop, hto]
    · have hle : n ≤ ⌊(t : ℚ) / i⌋₊ := wfmLoop_nonTimeout_poll_le_floor t i hi n hto
      by_cases h3 : (res n).state = .LOGGED_IN
      · simp [wfmLoop, hto, h3]
      · by_cases h4 : (res n).state = .LOGIN_ERROR
        · simp [wfmLoop, hto, h3, h4]
        · by_cases h5 : (res n).state = .TWOFA_MOBILE ∨ (res n).state = .UNKNOWN
          · have hrec := ih (n + 1) (by omega) (by omega)
            rcases h5 with h5 | h5 <;> simp [wfmLoop, hto, h3, h4, h5, hrec]
          · push_neg at h5
            simp [wfmLoop, hto, h3, h4, h5.1, h5.2]

/-- C7: the mobile-approval poll loop checks elapsed time against the timeout
before every classification (once elapsed strictly exceeds the timeout the
synthesized `TWOFA_MOBILE` timeout result is returned without consulting the
classifier); a `LOGGED_IN` or `LOGIN_ERROR` classification is returned
immediately; `TWOFA_MOBILE` or `UNKNOWN` leads to one sleep and another
iteration; any other classified state is returned immediately; and for every
timeout and positive poll interval the loop terminates within
`⌊timeout / interval⌋ + 2` polls. -/
theorem c7_mobile_wait_loop (res : Nat → PageStateResult) (t : Int) (i : ℚ)
    (hi : 0 < i) :
    (∀ (fuel n : Nat), (t : ℚ) < n * i →
      wfmLoop res t i (fuel + 1) n = some (mobileTimeoutResult t)) ∧
    (∀ (fuel n : Nat), ¬ ((t : ℚ) < n * i) →
      ((res n).state = .LOGGED_IN ∨ (res n).state = .LOGIN_ERROR) →
      wfmLoop res t i (fuel + 1) n = some (res n)) ∧
    (∀ (fuel n : Nat), ¬ ((t : ℚ) < n * i) →
      ((res n).state = .TWOFA_MOBILE ∨ (res n).state = .UNKNOWN) →
      wfmLoop res t i (fuel + 1) n = wfmLoop res t i fuel (n + 1)) ∧
    (∀ (fuel n : Nat), ¬ ((t : ℚ) < n * i) →
      (res n).state ≠ .LOGGED_IN → (res n).state ≠ .LOGIN_ERROR →
      (res n).state ≠ .TWOFA_MOBILE → (res n).state ≠ .UNKNOWN →
      wfmLoop res t i (fuel + 1) n = some (res n)) ∧
    (wfmLoop res t i (⌊(t : ℚ) / i⌋₊ + 2) 0).isSome = true := by
  refine ⟨?_, ?_, ?_, ?_, ?_⟩
  · intro fuel n hto
    simp [wfmLoop, hto]
  · intro fuel n hto hs
    rcases hs with hs | hs
    · simp [wfmLoop, hto, hs]
    · by_cases h3 : (res n).state = .LOGGED_IN
      · simp [wfmLoop, hto, h3]
      · simp [wfmLoop, hto, h3, hs]
  · intro fuel n hto hs
    have h3 : (res n).state ≠ .LOGGED_IN := by rcases hs with hs | hs <;> simp [hs]
    have h4 : (res n).state ≠ .LOGIN_ERROR := by rcases hs with hs | hs <;> simp [hs]
    rcases hs with hs | hs <;> simp [wfmLoop, hto, h3, h4, hs]
  · intro fuel n hto h3 h4 h5 h6
    simp [wfmLoop, hto, h3, h4, h5, h6]
  · exact wfmLoop_isSome_of_fuel res t i hi (⌊(t : ℚ) / i⌋₊ + 2) 0 (by omega) (by omega)

/-- Witness for C7 against a fixture classifier that always reports
`TWOFA_MOBILE`, with a 1-second timeout and a 1-second poll interval. -/
theorem c7_mobile_wait_loop_witness :
    (0 : ℚ) < 1 ∧
      wfmLoop (fun _ => ⟨.TWOFA_MOBILE, none, some "mobile", none⟩) 1 1 5 2
        = some (mobileTimeoutResult 1) ∧
      (wfmLoop (fun _ => ⟨.TWOFA_MOBILE, none, some "mobile", none⟩) 1 1
        (⌊((1 : Int) : ℚ) / 1⌋₊ + 2) 0).isSome = true := by
  refine ⟨by norm_num, ?_, ?_⟩
  · exact (c7_mobile_wait_loop (fun _ => ⟨.TWOFA_MOBILE, none, some "mobile", none⟩)
      1 1 (by norm_num)).1 4 2 (by norm_num)
  · exact (c7_mobile_wait_loop (fun _ => ⟨.TWOFA_MOBILE, none, some "mobile", none⟩)
      1 1 (by norm_num)).2.2.2.2

/- Registry lemmas. -/

theorem Session.updState_state (s : Session) (st : LoginState)
    (err user : Option String) (r2 : Option Bool) (tm : Option String) :
    (s.updState st err user r2 tm).state = st := by
  unfold Session.updState
  by_cases h : st = .SUCCESS ∨ st = .ERROR <;> simp [h]

theorem lookupSession_updateSession (r : Registry) (sid : String)
    (f : Session → Session) :
    lookupSession (updateSession r sid f) sid = (lookupSession r sid).map f := by
  induction r with
  | nil => rfl
  | cons p t ih =>
    by_cases h : p.1 = sid
    · simp [updateSession, lookupSession, h]
    · simp [updateSession, lookupSession, h, ih]

theorem lookupSession_mgrUpdateState {r : Registry} {sid : String} {s : Session}
    (h : lookupSession r sid = some s) (st : LoginState) (err : Option String)
    (user : Option String) (r2 : Option Bool) (tm : Option String) :
    lookupSession (mgrUpdateState r sid st err user r2 tm) sid
      = some (s.updState st err user r2 tm) := by
  simp [mgrUpdateState, lookupSession_updateSession, h]

theorem lookupSession_removeSession (r : Registry) (sid : String) :
    lookupSession (removeSession r sid) sid = none := by
  induction r with
  | nil => rfl
  | cons p t ih =>
    by_cases h : p.1 = sid
    · simp [removeSession, h, ih]
    · simp [removeSession, lookupSession, h, ih]

/-- C2: for a session in `Initialized`, `submitCredentials` maps the
classification result to the stored session state exactly as claimed
(LoggedIn → Success after a successful persistence hand-off, persistence
failure → Error; TwoFactorApp/TwoFactorSms → WaitingTwoFactor;
TwoFactorMobile → WaitingMobile; Captcha → Captcha;
TwoFactorSecurityKey/LoginError/Unknown → Error), and the returned status tag
matches the stored state. -/
theorem c2_submit_credentials_mapping (r : Registry) (sid : String) (s : Session)
    (result : PageStateResult) (persistOk : Bool) (persistUser : Option String)
    (hl : lookupSession r sid = some s) (hst : s.state = .INITIALIZED) :
    ∃ s' resp,
      lookupSession (routeSubmitCredentials r sid true result persistOk persistUser).1 sid
          = some s' ∧
        (routeSubmitCredentials r sid true result persistOk persistUser).2
          = RouteResult.ok resp ∧
        s'.state = claimedCredMapping result.state persistOk ∧
        resp.status = statusMap s'.state := by
  obtain ⟨ps, em, tmm, vc⟩ := result
  have hguard : ¬ (s.state ≠ LoginState.INITIALIZED) := by simp [hst]
  cases ps <;> cases persistOk <;>
    simp only [routeSubmitCredentials, hl, hguard, if_false, ite_false, ite_true,
      Bool.false_eq_true, if_neg, reduceIte] <;>
    refine ⟨_, _, lookupSession_mgrUpdateState
      (lookupSession_mgrUpdateState hl _ _ _ _ _) _ _ _ _ _, rfl, ?_, ?_⟩ <;>
    simp [Session.updState_state, claimedCredMapping, statusMap]

/-- Witness for C2: a fresh Initialized session receiving a `LOGIN_ERROR`
classification ends in stored state Error with status tag "error". -/
theorem c2_submit_credentials_mapping_witness :
    ∃ s' resp,
      lookupSession
          (routeSubmitCredentials
            [("s1", ⟨"s1", "acme", .INITIALIZED, none, none, none, false⟩)]
            "s1" true ⟨.LOGIN_ERROR, some "Incorrect username or password.", none, none⟩
            true none).1 "s1"
          = some s' ∧
        (routeSubmitCredentials
            [("s1", ⟨"s1", "acme", .INITIALIZED, none, none, none, false⟩)]
            "s1" true ⟨.LOGIN_ERROR, some "Incorrect username or password.", none, none⟩
            true none).2
          = RouteResult.ok resp ∧
        s'.state = claimedCredMapping .LOGIN_ERROR true ∧
        resp.status = statusMap s'.state :=
  c2_submit_credentials_mapping
    [("s1", ⟨"s1", "acme", .INITIALIZED, none, none, none, false⟩)]
    "s1" ⟨"s1", "acme", .INITIALIZED, none, none, none, false⟩
    ⟨.LOGIN_ERROR, some "Incorrect username or password.", none, none⟩
    true none rfl rfl

/-- C3: each of the three guarded operations invoked against a session whose
current state is not the operation's required source state (Initialized for
submitCredentials, WaitingTwoFactor for submitTwoFactor, WaitingMobile for
waitMobile) is rejected with an InvalidSessionState client error (HTTP 400)
and returns the registry unchanged, so no field of the stored session is
mutated. -/
theorem c3_invalid_state_rejected (r : Registry) (sid : String) (s : Session)
    (fp : Bool) (result : PageStateResult) (persistOk : Bool)
    (persistUser : Option String) (hl : lookupSession r sid = some s) :
    (s.state ≠ .INITIALIZED →
      routeSubmitCredentials r sid fp result persistOk persistUser
        = (r, .httpError 400
            ("Invalid session state for credentials: " ++ s.state.value))) ∧
    (s.state ≠ .WAITING_2FA →
      routeSubmit2fa r sid fp result persistOk persistUser
        = (r, .httpError 400 ("Invalid session state for 2FA: " ++ s.state.value))) ∧
    (s.state ≠ .WAITING_MOBILE →
      routeMobileWait r sid fp result persistOk persistUser
        = (r, .httpError 400
            ("Invalid session state for mobile wait: " ++ s.state.value))) := by
  refine ⟨fun h => ?_, fun h => ?_, fun h => ?_⟩
  · simp [routeSubmitCredentials, hl, h]
  · simp [routeSubmit2fa, hl, h]
  · simp [routeMobileWait, hl, h]

/-- Witness for C3 at a session resting in the Captcha state, which is a valid
source state for none of the three operations. -/
theorem c3_invalid_state_rejected_witness :
    routeSubmitCredentials (sampleRegistry .CAPTCHA) "s1" true
        ⟨.LOGGED_IN, none, none, none⟩ true none
      = (sampleRegistry .CAPTCHA,
         .httpError 400 ("Invalid session state for credentials: "
           ++ (sampleSession .CAPTCHA).state.value)) ∧
      routeSubmit2fa (sampleRegistry .CAPTCHA) "s1" true
          ⟨.LOGGED_IN, none, none, none⟩ true none
        = (sampleRegistry .CAPTCHA,
           .httpError 400 ("Invalid session state for 2FA: "
             ++ (sampleSession .CAPTCHA).state.value)) ∧
      routeMobileWait (sampleRegistry .CAPTCHA) "s1" true
          ⟨.LOGGED_IN, none, none, none⟩ true none
        = (sampleRegistry .CAPTCHA,
           .httpError 400 ("Invalid session state for mobile wait: "
             ++ (sampleSession .CAPTCHA).state.value)) := by
  have h := c3_invalid_state_rejected (sampleRegistry .CAPTCHA) "s1"
    (sampleSession .CAPTCHA) true ⟨.LOGGED_IN, none, none, none⟩ true none rfl
  exact ⟨h.1 (by decide), h.2.1 (by decide), h.2.2 (by decide)⟩

/- Retry invariant for C6. -/

theorem retry2fa_keeps_waiting (sid : String) (em tmm vc : Option String)
    (persistOk : Bool) (persistUser : Option String) :
    ∀ (n : Nat) (r : Registry) (s : Session),
      lookupSession r sid = some s → s.state = .WAITING_2FA →
      ∃ s', lookupSession
          (retry2faIter sid ⟨.LOGIN_ERROR, em, tmm, vc⟩ persistOk persistUser n r) sid
          = some s' ∧ s'.state = .WAITING_2FA := by
  intro n
  induction n with
  | zero => intro r s hl hst; exact ⟨s, hl, hst⟩
  | succ n ih =>
    intro r s hl hst
    have hguard : ¬ (s.state ≠ LoginState.WAITING_2FA) := by simp [hst]
    have hstep : (routeSubmit2fa r sid true ⟨.LOGIN_ERROR, em, tmm, vc⟩
        persistOk persistUser).1
        = mgrUpdateState (mgrUpdateState r sid .SUBMITTING_2FA none none none none)
            sid .WAITING_2FA none none none none := by
      simp [routeSubmit2fa, hl, hguard]
    have hlook := lookupSession_mgrUpdateState
      (lookupSession_mgrUpdateState hl .SUBMITTING_2FA none none none none)
      .WAITING_2FA none none none none
    rw [← hstep] at hlook
    exact ih (routeSubmit2fa r sid true ⟨.LOGIN_ERROR, em, tmm, vc⟩
        persistOk persistUser).1
      ((s.updState .SUBMITTING_2FA none none none none).updState
        .WAITING_2FA none none none none)
      hlook (Session.updState_state _ _ _ _ _ _)

/-- C6: for a session in `WaitingTwoFactor`, `submitTwoFactor` maps the
classification result exactly as claimed (LoggedIn → Success after a
successful persistence hand-off, persistence failure → Error;
LoginError → WaitingTwoFactor; any other result → Error), the returned status
tag matches the stored state, and the LoginError case is retryable without
limit: any number of successive wrong-code submissions leaves the stored
session in WaitingTwoFactor. -/
theorem c6_submit_2fa_mapping (r : Registry) (sid : String) (s : Session)
    (result : PageStateResult) (persistOk : Bool) (persistUser : Option String)
    (hl : lookupSession r sid = some s) (hst : s.state = .WAITING_2FA) :
    (∃ s' resp,
      lookupSession (routeSubmit2fa r sid true result persistOk persistUser).1 sid
          = some s' ∧
        (routeSubmit2fa r sid true result persistOk persistUser).2
          = RouteResult.ok resp ∧
        s'.state = claimed2faMapping result.state persistOk ∧
        resp.status = statusMap s'.state) ∧
    (∀ (em tmm vc : Option String) (n : Nat),
      ∃ s', lookupSession
          (retry2faIter sid ⟨.LOGIN_ERROR, em, tmm, vc⟩ persistOk persistUser n r) sid
          = some s' ∧ s'.state = .WAITING_2FA) := by
  constructor
  · obtain ⟨ps, em, tmm, vc⟩ := result
    have hguard : ¬ (s.state ≠ LoginState.WAITING_2FA) := by simp [hst]
    cases ps <;> cases persistOk <;>
      simp only [routeSubmit2fa, hl, hguard, if_false, ite_false, ite_true,
        Bool.false_eq_true, if_neg, reduceIte] <;>
      refine ⟨_, _, lookupSession_mgrUpdateState
        (lookupSession_mgrUpdateState hl _ _ _ _ _) _ _ _ _ _, rfl, ?_, ?_⟩ <;>
      simp [Session.updState_state, claimed2faMapping, statusMap]
  · intro em tmm vc n
    exact retry2fa_keeps_waiting sid em tmm vc persistOk persistUser n r s hl hst

/-- Witness for C6: a wrong code (LoginError classification) against a
WaitingTwoFactor session, and three successive wrong codes, all leave the
session in WaitingTwoFactor. -/
theorem c6_submit_2fa_mapping_witness :
    (∃ s' resp,
      lookupSession
          (routeSubmit2fa (sampleRegistry .WAITING_2FA) "s1" true
            ⟨.LOGIN_ERROR, some "Two-factor authentication failed.", none, none⟩
            true none).1 "s1"
          = some s' ∧
        (routeSubmit2fa (sampleRegistry .WAITING_2FA) "s1" true
            ⟨.LOGIN_ERROR, some "Two-factor authentication failed.", none, none⟩
            true none).2
          = RouteResult.ok resp ∧
        s'.state = claimed2faMapping .LOGIN_ERROR true ∧
        resp.status = statusMap s'.state) ∧
    (∃ s', lookupSession
        (retry2faIter "s1"
          ⟨.LOGIN_ERROR, some "Two-factor authentication failed.", none, none⟩
          true none 3 (sampleRegistry .WAITING_2FA)) "s1"
        = some s' ∧ s'.state = .WAITING_2FA) := by
  have h := c6_submit_2fa_mapping (sampleRegistry .WAITING_2FA) "s1"
    (sampleSession .WAITING_2FA)
    ⟨.LOGIN_ERROR, some "Two-factor authentication failed.", none, none⟩
    true none rfl rfl
  exact ⟨h.1, h.2 (some "Two-factor authentication failed.") none none 3⟩

/-- C4 counterexample: cancelling the same session id twice does NOT succeed
both times — the first cancel succeeds, but the second hits the
session-is-gone guard and is rejected with SessionNotFound (HTTP 404). -/
theorem c4_counterexample :
    (routeCancel (sampleRegistry .INITIALIZED) "s1").2
        = RouteResult.ok (cancelledResponse "s1") ∧
      (routeCancel (routeCancel (sampleRegistry .INITIALIZED) "s1").1 "s1").2
        = RouteResult.httpError 404 "Session not found or expired" := by
  refine ⟨by decide, by decide⟩

/-- C4 amended: the first cancel on a live session succeeds and removes the
session; after it the id is gone, and any operation on that id — including a
second cancel, a status read, and the three flow operations — returns
SessionNotFound (HTTP 404). Cancellation is not idempotent at the operation
level; only the removal itself is (cancelling an already-removed id mutates
nothing). -/
theorem c4_cancel_then_not_found (r : Registry) (sid : String) (s : Session)
    (hl : lookupSession r sid = some s) :
    routeCancel r sid = (removeSession r sid, RouteResult.ok (cancelledResponse sid)) ∧
      lookupSession (removeSession r sid) sid = none ∧
      routeCancel (removeSession r sid) sid
        = (removeSession r sid, RouteResult.httpError 404 "Session not found or expired") ∧
      routeStatus (removeSession r sid) sid
        = RouteResult.httpError 404 "Session not found or expired" ∧
      (∀ (fp : Bool) (result : PageStateResult) (persistOk : Bool)
          (persistUser : Option String),
        routeSubmitCredentials (removeSession r sid) sid fp result persistOk persistUser
            = (removeSession r sid,
               RouteResult.httpError 404 "Session not found or expired") ∧
          routeSubmit2fa (removeSession r sid) sid fp result persistOk persistUser
            = (removeSession r sid,
               RouteResult.httpError 404 "Session not found or expired") ∧
          routeMobileWait (removeSession r sid) sid fp result persistOk persistUser
            = (removeSession r sid,
               RouteResult.httpError 404 "Session not found or expired")) := by
  have hgone := lookupSession_removeSession r sid
  refine ⟨by simp [routeCancel, hl, cancelledResponse], hgone,
    by simp [routeCancel, hgone], by simp [routeStatus, hgone], ?_⟩
  intro fp result persistOk persistUser
  exact ⟨by simp [routeSubmitCredentials, hgone],
    by simp [routeSubmit2fa, hgone],
    by simp [routeMobileWait, hgone]⟩

/-- Witness for the amended C4 at a one-session registry. -/
theorem c4_cancel_then_not_found_witness :
    routeCancel (sampleRegistry .INITIALIZED) "s1"
        = (removeSession (sampleRegistry .INITIALIZED) "s1",
           RouteResult.ok (cancelledResponse "s1")) ∧
      routeCancel (removeSession (sampleRegistry .INITIALIZED) "s1") "s1"
        = (removeSession (sampleRegistry .INITIALIZED) "s1",
           RouteResult.httpError 404 "Session not found or expired") :=
  ⟨(c4_cancel_then_not_found (sampleRegistry .INITIALIZED) "s1"
      (sampleSession .INITIALIZED) rfl).1,
   (c4_cancel_then_not_found (sampleRegistry .INITIALIZED) "s1"
      (sampleSession .INITIALIZED) rfl).2.2.1⟩
